import Mathlib

/-!
Verification of the cTime repository (OlafSimon/cTime).

This file gives a shallow embedding, in Lean, of the arithmetic core of the
repository: the floor-modulo helper `unsignedModulo`, the overflow-safe
epoch/calendar converters `y2038Calendar` / `y2038Set`, the time-zone shift
`setTimeZone` (all from src/src/LibCpp/Time/y2038Calendar.cpp), and the
duration and string-codec functions of class `cTime`
(src/src/cTimeStd.cpp and src/src/LibCpp/Time/cTimeStd.cpp).

Machine integers are embedded as `Int`/`Nat` with explicit wrapping where the
C++ code performs a narrowing cast (`wrap32` for `(int32_t)`, `wrap8` for
`(int8_t)`, `u64ofInt` for `(uint64_t)`), and C++ `/` and `%` on signed
operands are `Int.tdiv` / `Int.tmod` (truncation toward zero).
-/

namespace CTime

/-- Two's-complement wrap of an integer into the `int64_t` range,
the effect of a narrowing assignment to `int64_t`. -/
def wrap64 (x : Int) : Int := (x + 2 ^ 63) % 2 ^ 64 - 2 ^ 63

/-- Two's-complement wrap of an integer into the `int32_t` range,
the effect of the C++ cast `(int32_t)`. -/
def wrap32 (x : Int) : Int := (x + 2 ^ 31) % 2 ^ 32 - 2 ^ 31

/-- Two's-complement wrap of an integer into the `int8_t` range,
the effect of the C++ cast `(int8_t)`. -/
def wrap8 (x : Int) : Int := (x + 2 ^ 7) % 2 ^ 8 - 2 ^ 7

/-- Reduction of an integer into the `uint64_t` range, the effect of the C++
cast `(uint64_t)` (conversion to an unsigned type is reduction mod 2^64). -/
def u64ofInt (x : Int) : Nat := (x % 2 ^ 64).toNat

/-- The value a `uint64_t` bit pattern denotes when read as `int64_t`:
the effect of the C++ cast `(T)modulo` with `T = int64_t`,
`uT = uint64_t` inside `BibCpp::unsignedModulo`. -/
def i64ofU64 (m : Nat) : Int := if m < 2 ^ 63 then (m : Int) else (m : Int) - 2 ^ 64

/-- Reduction of an integer into the `uint8_t` range, the effect of the C++
cast `(uint8_t)`. -/
def u8ofInt (x : Int) : Int := x % 2 ^ 8

/-- Embedding of `BibCpp::unsignedModulo<int64_t, uint64_t>`
(src/src/LibCpp/Time/y2038Calendar.cpp lines 354-380).  `value` is the signed
64-bit input, `modulo` the unsigned 64-bit modulus; the returned pair is
`(divisor, remainder)`.  The branch structure mirrors the source:

  if (modulo == 0) { divisor = 1; remainder = 0; }
  else {
    div = value / (T)modulo;  rem = value % (T)modulo;
    if (div < 0) { div -= 1; if (rem < 0) rem += modulo; }
    if (div == 0 && rem < 0) { rem += modulo; div -= 1; }
    remainder = (uT)rem;  divisor = div; }

The remainder is returned as `Int`; in every branch it is the value of the
`uint64_t` output (nonnegative whenever `(T)modulo > 0`). -/
def unsignedModulo (value : Int) (modulo : Nat) : Int × Int :=
  if modulo = 0 then (1, 0)
  else
    let m : Int := i64ofU64 modulo
    let div : Int := value.tdiv m
    let rem : Int := value.tmod m
    let dr : Int × Int :=
      if div < 0 then (div - 1, if rem < 0 then rem + modulo else rem)
      else (div, rem)
    let dr : Int × Int :=
      if dr.1 = 0 ∧ dr.2 < 0 then (dr.1 - 1, dr.2 + modulo) else dr
    (dr.1, dr.2)

/-! ### Calendar constants (src/src/LibCpp/Time/y2038Calendar.cpp lines 91-153) -/

/-- `BibCpp_SECONDSPERHOUR = 60 * 60`. -/
def SECONDSPERHOUR : Nat := 3600

/-- `BibCpp_SECONDSPERDAY = 24 * 3600`. -/
def SECONDSPERDAY : Nat := 86400

/-- `BibCpp_SECONDSPERWEEK = 7 * 86400`. -/
def SECONDSPERWEEK : Nat := 7 * 86400

/-- `BibCpp_SECONDSPERNORMALYEAR = 365 * 86400`. -/
def SECONDSPERNORMALYEAR : Nat := 365 * 86400

/-- `BibCpp_DAYSPER4YEARS = 4 * 365 + 1`. -/
def DAYSPER4YEARS : Nat := 4 * 365 + 1

/-- `BibCpp_DAYSPER100YEARS = 25 * DAYSPER4YEARS - 1`. -/
def DAYSPER100YEARS : Nat := 25 * DAYSPER4YEARS - 1

/-- `BibCpp_DAYSPER400YEARS = 4 * DAYSPER100YEARS + 1`. -/
def DAYSPER400YEARS : Nat := 4 * DAYSPER100YEARS + 1

/-- `BibCpp_SECONDSPER4YEARS`. -/
def SECONDSPER4YEARS : Nat := DAYSPER4YEARS * SECONDSPERDAY

/-- `BibCpp_SECONDSPER100YEARS`. -/
def SECONDSPER100YEARS : Nat := DAYSPER100YEARS * SECONDSPERDAY

/-- `BibCpp_SECONDSPER400YEARS`. -/
def SECONDSPER400YEARS : Nat := DAYSPER400YEARS * SECONDSPERDAY

/-- `BibCpp_TIME_T_2001 = 978307200`, the unix time of 2001-01-01 00:00:00 UTC. -/
def TIME_T_2001 : Int := 978307200

/-- `BibCpp_TIME_T_2030 = 1893456000`, the unix time of 2030-01-01 00:00:00 UTC. -/
def TIME_T_2030 : Int := 1893456000

/-- `BibCpp_TIME_T_2030_2001 = TIME_T_2030 - TIME_T_2001`. -/
def TIME_T_2030_2001 : Int := TIME_T_2030 - TIME_T_2001

/-- The leap-year predicate `LibCpp_isLeapYear` / `BibCpp_isLeapYear`
(src/src/cTime.h line 15): `((y % 4 == 0 && y % 100 != 0) || y % 400 == 0)`.
C++ `%` on signed operands is `Int.tmod`. -/
def isLeapYear (y : Int) : Bool :=
  (y.tmod 4 = 0 ∧ y.tmod 100 ≠ 0) ∨ y.tmod 400 = 0

/-- `BibCpp_SECONDSTILLMONTH[0]`: cumulative seconds from the start of a
non-leap year to the start of each month (y2038Calendar.cpp line 152).
Cumulative day counts 0, 31, 59, ..., 334 times 86400. -/
def SECONDSTILLMONTH_noleap : List Nat :=
  [0, 31, 59, 90, 120, 151, 181, 212, 243, 273, 304, 334].map (· * SECONDSPERDAY)

/-- `BibCpp_SECONDSTILLMONTH[1]`: cumulative seconds in a leap year
(row 0 plus one extra day from March on, y2038Calendar.cpp line 153). -/
def SECONDSTILLMONTH_leap : List Nat :=
  [0, 31, 60, 91, 121, 152, 182, 213, 244, 274, 305, 335].map (· * SECONDSPERDAY)

/-- `BibCpp_SECONDSTILLMONTH[il][m]` as a function of the leap flag and the
zero-based month index. -/
def SECONDSTILLMONTH (il : Bool) (m : Nat) : Nat :=
  (if il then SECONDSTILLMONTH_leap else SECONDSTILLMONTH_noleap).getD m 0

/-- `BibCpp::DAYSOFMONTH[2][13]` (y2038Calendar.cpp lines 387-388): days per
month, indexed by the leap flag and the one-based month (entry 0 unused). -/
def DAYSOFMONTH (il : Bool) (month : Int) : Int :=
  (if il then ([0, 31, 29, 31, 30, 31, 30, 31, 31, 30, 31, 30, 31] : List Int)
   else [0, 31, 28, 31, 30, 31, 30, 31, 31, 30, 31, 30, 31]).getD month.toNat 0

/-! ### The calendar record (src/src/cTime.h, struct `_stCalendar`) -/

/-- Embedding of `LibCpp::stCalendar` (src/src/cTime.h lines 37-53).
All machine-integer fields are embedded as `Int`; the widths of the C++
fields (`int32_t year`, `uint8_t month` ... `int16_t dayInYear`) are
enforced by explicit wraps at the assignments that could overflow them. -/
structure stCalendar where
  year : Int
  month : Int
  day : Int
  hour : Int
  minute : Int
  second : Int
  dst : Int
  timeZone : Int
  leapSecond : Int
  subZone : Int
  picoSeconds : Int
  dayInWeek : Int
  calendarWeek : Int
  dayInYear : Int
deriving DecidableEq, Repr

/-- `LibCpp::stCalendar_Ini` (src/src/cTimeStd.cpp line 146).  The
positional initializer `{0, 0, 0, 0, 0, 0, 0, 0, -1, 0, 0, 0, 0, 0}` puts
its ninth entry `-1` on the ninth declared field, `leapSecond`; every other
field — including `dst`, the seventh — is 0. -/
def stCalendar_Ini : stCalendar :=
  { year := 0, month := 0, day := 0, hour := 0, minute := 0, second := 0
    dst := 0, timeZone := 0, leapSecond := -1, subZone := 0, picoSeconds := 0
    dayInWeek := 0, calendarWeek := 0, dayInYear := 0 }

/-! ### The overflow-safe converter `BibCpp::y2038Calendar`
(src/src/LibCpp/Time/y2038Calendar.cpp lines 192-298).

The embedding covers the branch where the caller passes an explicit time
zone (`timeZone != nullptr`): the other branch reads the host clock and the
platform's local-zone oracle, which are outside the program.  `timeZone` is
the pointed-to `int8_t`, `dst` the `int8_t` dst argument. -/

/-- The month index found by the scan
`for (m=11; m>=0; m--) if (block1 >= SECONDSTILLMONTH[il][m]) break;`:
the largest `m` in 11..0 whose cumulative threshold is not above `block1`.
Since entry 0 is 0 and `block1 ≥ 0`, the scan always stops (at worst at 0). -/
def monthScan (il : Bool) (block1 : Int) : Nat :=
  (((List.range 12).reverse).find? fun m => block1 ≥ (SECONDSTILLMONTH il m : Int)).getD 0

/-- Embedding of `BibCpp::y2038Calendar` with an explicit requested zone.
Step for step: truncate the input to `int32_t`, roll to epoch 2030 in
`int32_t` arithmetic, widen to `int64_t`, roll to the start of 2001, shift
by the relative zone (`*timeZone`, minus one hour when `dst > 0`), then
decompose by nested `unsignedModulo` calls and the month table. -/
def y2038Calendar (unixSeconds : Int) (timeZone : Int) (dst : Int) : stCalendar :=
  let time32 : Int := wrap32 unixSeconds
  let time32 : Int := wrap32 (time32 - TIME_T_2030)
  let time64 : Int := time32 + TIME_T_2030_2001
  let relZone : Int := if dst > 0 then timeZone - 1 else timeZone
  let time64 : Int := time64 + relZone * SECONDSPERHOUR
  let kb := unsignedModulo time64 SECONDSPER400YEARS
  let k := kb.1
  let block400 := kb.2
  let jb := unsignedModulo block400 SECONDSPER100YEARS
  let j := jb.1
  let block100 := jb.2
  let ib := unsignedModulo block100 SECONDSPER4YEARS
  let i := ib.1
  let block4 := ib.2
  let hb := unsignedModulo block4 SECONDSPERNORMALYEAR
  let h := hb.1
  let block1 := hb.2
  let daysBeginSince2001 : Int :=
    k * DAYSPER400YEARS + j * DAYSPER100YEARS + i * DAYSPER4YEARS + h * 365
  let year : Int := (k + 5) * 400 + j * 100 + i * 4 + (h + 1)
  let il := isLeapYear year
  let m := monthScan il block1
  let blockM : Int := block1 - SECONDSTILLMONTH il m
  let db := unsignedModulo blockM SECONDSPERDAY
  let d := db.1
  let blockD := db.2
  let hrb := unsignedModulo blockD SECONDSPERHOUR
  let hour := hrb.1
  let blockHr := hrb.2
  let minsec := unsignedModulo blockHr 60
  let minute := minsec.1
  let second := minsec.2
  let diy := unsignedModulo block1 SECONDSPERDAY
  let dayInYear := diy.1 + 1
  let wb := unsignedModulo time64 SECONDSPERWEEK
  let dWeeks2001 := wb.1
  let blockW := wb.2
  let yWeeks2001 := daysBeginSince2001.tdiv 7
  let calendarWeek := wrap8 (u8ofInt (dWeeks2001 - yWeeks2001 + 1))
  let dwb := unsignedModulo blockW SECONDSPERDAY
  let dayInWeek := dwb.1 + 1
  { stCalendar_Ini with
    dst := dst, timeZone := timeZone, year := year, month := (m : Int) + 1
    day := d + 1, hour := hour, minute := minute, second := second
    dayInYear := dayInYear, calendarWeek := calendarWeek, dayInWeek := dayInWeek }

/-- Embedding of `BibCpp::y2038Set`
(src/src/LibCpp/Time/y2038Calendar.cpp lines 307-340): rebuild the seconds
count relative to 2001 from the calendar fields, subtract the relative zone
(offset plus one hour when `dst > 0`), roll back to epoch 2030 and then to
the 1970 epoch in `int32_t` arithmetic. -/
def y2038Set (calendar : stCalendar) : Int :=
  let y : Int := calendar.year - 2001
  let kr := unsignedModulo y 400
  let k := kr.1
  let rem400 := kr.2
  let jr := unsignedModulo rem400 100
  let j := jr.1
  let rem100 := jr.2
  let ih := unsignedModulo rem100 4
  let i := ih.1
  let h := ih.2
  let il := isLeapYear calendar.year
  let time64 : Int :=
    k * SECONDSPER400YEARS + j * SECONDSPER100YEARS + i * SECONDSPER4YEARS
      + h * SECONDSPERNORMALYEAR
      + SECONDSTILLMONTH il (calendar.month - 1).toNat
      + (calendar.day - 1) * SECONDSPERDAY
      + calendar.hour * SECONDSPERHOUR
      + calendar.minute * 60
      + calendar.second
  let relZone : Int := if calendar.dst > 0 then calendar.timeZone + 1 else calendar.timeZone
  let time64 : Int := time64 - relZone * SECONDSPERHOUR
  let time64 : Int := time64 - TIME_T_2030_2001
  let time32 : Int := wrap32 time64
  wrap32 (time32 + TIME_T_2030)

/-! ### The zone shift `setTimeZone`
(src/src/LibCpp/Time/y2038Calendar.cpp lines 390-457). -/

/-- Embedding of `setTimeZone(stCalendar*, uint8_t destZone)`.  `destZone` is
the `uint8_t` argument (0..255).  `diffHours` is computed in `int8_t`; the
hour is shifted by it and a single borrow/carry across midnight is applied,
with month and year carried via the `DAYSOFMONTH` table.  The function
mutates the struct; the embedding returns the updated record. -/
def setTimeZone (c : stCalendar) (destZone : Int) : stCalendar :=
  let il := isLeapYear c.year
  let diffHours : Int := wrap8 (destZone - c.timeZone)
  let diffHours : Int := if c.dst > 0 then diffHours + 1 else diffHours
  if diffHours > 0 then
    let hour : Int := c.hour + diffHours
    let c :=
      if hour > 23 then
        let c := { c with hour := hour - 24 }
        let day : Int := c.day + 1
        let month : Int := c.month
        if day > DAYSOFMONTH il month then
          let day : Int := 1
          let month : Int := month + 1
          if month > 12 then { c with day := day, month := 1, year := c.year + 1 }
          else { c with day := day, month := month }
        else { c with day := day }
      else { c with hour := hour }
    { c with dst := 0 }
  else if diffHours < 0 then
    let hour : Int := c.hour + diffHours
    let c :=
      if hour < 0 then
        let c := { c with hour := hour + 24 }
        let day : Int := c.day - 1
        let month : Int := c.month
        if day < 0 then
          let month : Int := month - 1
          if month < 1 then { c with day := DAYSOFMONTH il 12, month := 12, year := c.year - 1 }
          else { c with day := DAYSOFMONTH il month, month := month }
        else { c with day := day }
      else { c with hour := hour }
    { c with dst := 0 }
  else c

/-! ### Durations (src/src/cTime.h struct `_stDuration`,
src/src/cTimeStd.cpp `cTime::duration`, `cTime::set(stDuration)`). -/

/-- Embedding of `LibCpp::stDuration` (src/src/cTime.h lines 63-70): four
`uint64_t` magnitudes (embedded as `Nat`, kept below 2^64 by the explicit
casts at every assignment) and an `int8_t` sign. -/
structure stDuration where
  days : Nat
  hours : Nat
  minutes : Nat
  seconds : Nat
  sign : Int
deriving DecidableEq, Repr

/-- `LibCpp::stDuration_Ini = {0, 0, 0, 0, 1}` (src/src/cTimeStd.cpp line 147). -/
def stDuration_Ini : stDuration :=
  { days := 0, hours := 0, minutes := 0, seconds := 0, sign := 1 }

/-- Embedding of `cTime::duration()` (src/src/cTimeStd.cpp lines 342-359)
as a function of the stored unix time `_time`: take the sign, negate a
negative value, then divide down by 86400, 3600 and 60.  The C++ negation
`value = -value` of `time_t` is wrapped to `int64_t` (it only differs from
mathematical negation at `_time = -2^63`). -/
def duration (t : Int) : stDuration :=
  let sign : Int := if t < 0 then -1 else 1
  let value : Nat := u64ofInt (wrap64 (if t < 0 then -t else t))
  { days := value / 86400
    hours := value % 86400 / 3600
    minutes := value % 86400 % 3600 / 60
    seconds := value % 86400 % 3600 % 60
    sign := sign }

/-- Embedding of `cTime::set(stDuration)` (src/src/cTimeStd.cpp lines
212-217): `value = days*86400 + hours*3600 + minutes*60 + seconds` in
`uint64_t` arithmetic assigned to `time_t` (a 64-bit wrap), negated when
`sign < 0`.  Returns the unix time the created instance stores. -/
def setDuration (d : stDuration) : Int :=
  let value : Int :=
    wrap64 ((d.days * 86400 + d.hours * 3600 + d.minutes * 60 + d.seconds : Nat) % 2 ^ 64)
  if d.sign < 0 then wrap64 (-value) else value

/-! ### String codec (src/src/cTimeStd.cpp). -/

/-- Two-digit rendering of `%02d` in `sprintf`: numbers in 0..9 get a
leading zero, everything else prints as the plain decimal. -/
def pad2 (n : Int) : String :=
  if 0 ≤ n ∧ n < 10 then "0" ++ toString n else toString n

/-- Embedding of `cTime::toString(stDuration)` (src/src/cTimeStd.cpp lines
542-551): `sprintf(buffer, "D%d#%02d:%02d:%02d", days, hours, minutes,
seconds)` where each `uint64_t` field is first cast to `int` (32-bit) and
`days` is negated when the sign is negative. -/
def toStringDuration (d : stDuration) : String :=
  let days : Int := wrap32 d.days
  let days : Int := if d.sign < 0 then -days else days
  "D" ++ toString days ++ "#" ++ pad2 (wrap32 d.hours) ++ ":"
    ++ pad2 (wrap32 d.minutes) ++ ":" ++ pad2 (wrap32 d.seconds)

/-- One `%d` conversion of `sscanf`: skip whitespace, an optional sign, then
at least one decimal digit; `none` when no digit is found (matching
failure), otherwise the value and the rest of the input. -/
def scanInt (cs : List Char) : Option (Int × List Char) :=
  let cs := cs.dropWhile Char.isWhitespace
  let signed : Bool × List Char :=
    match cs with
    | '-' :: rest => (true, rest)
    | '+' :: rest => (false, rest)
    | _ => (false, cs)
  let digits := signed.2.takeWhile Char.isDigit
  let rest := signed.2.dropWhile Char.isDigit
  if digits.isEmpty then none
  else
    let n : Nat := digits.foldl (fun a c => a * 10 + (c.toNat - 48)) 0
    some (if signed.1 then -(n : Int) else (n : Int), rest)

/-- The four `int` values assigned by
`sscanf_s(s, "D%d#%d:%d:%d", &days, &hours, &minutes, &seconds)`: each
variable keeps its initial 0 once a literal or conversion fails to match
(`sscanf` stops at the first failure). -/
def scanDuration (cs : List Char) : Int × Int × Int × Int :=
  match cs with
  | 'D' :: cs1 =>
    match scanInt cs1 with
    | none => (0, 0, 0, 0)
    | some (days, cs2) =>
      match cs2 with
      | '#' :: cs3 =>
        match scanInt cs3 with
        | none => (days, 0, 0, 0)
        | some (hours, cs4) =>
          match cs4 with
          | ':' :: cs5 =>
            match scanInt cs5 with
            | none => (days, hours, 0, 0)
            | some (minutes, cs6) =>
              match cs6 with
              | ':' :: cs7 =>
                match scanInt cs7 with
                | none => (days, hours, minutes, 0)
                | some (seconds, _) => (days, hours, minutes, seconds)
              | _ => (days, hours, minutes, 0)
          | _ => (days, hours, 0, 0)
      | _ => (days, 0, 0, 0)
  | _ => (0, 0, 0, 0)

/-- Embedding of `cTime::fromDurationString` (src/src/cTimeStd.cpp lines
476-496; the copy in src/src/LibCpp/Time/cTimeStd.cpp lines 515-535 is
identical): a string whose first character is not `D` returns
`stDuration_Ini` unchanged; otherwise the `sscanf` results are stored, with
`days` negated into the sign and each `int` cast to `uint64_t`. -/
def fromDurationString (s : String) : stDuration :=
  if s.data.getD 0 default ≠ 'D' then stDuration_Ini
  else
    let q := scanDuration s.data
    let days := q.1
    let hours := q.2.1
    let minutes := q.2.2.1
    let seconds := q.2.2.2
    let sign : Int := if days < 0 then -1 else 1
    let days : Int := if days < 0 then -days else days
    { days := u64ofInt days, hours := u64ofInt hours, minutes := u64ofInt minutes
      seconds := u64ofInt seconds, sign := sign }

/-- The three characters `dateString.c_str()[20..22]` that
`cTime::fromString` (src/src/cTimeStd.cpp lines 450-453) copies into its
`dst[4]` buffer: in the fixed GZC layout
`YYYY-MM-DD#hh:mm:ss#XXX#±hh:00` these are the dst token. -/
def dstToken (s : String) : String :=
  String.mk [s.data.getD 20 default, s.data.getD 21 default, s.data.getD 22 default]

/-- The `calendar.dst` value produced by `cTime::fromString`
(src/src/cTimeStd.cpp lines 454-459).  The source is the sequence

  if (strcmp(dst, "STD") == 0) calendar.dst = 0;
  if (strcmp(dst, "DST") == 0) calendar.dst = 1;
  else                         calendar.dst = -1;

starting from `stCalendar_Ini.dst = 0`; the `else` binds to the second
`if`, so the second statement overwrites whatever the first one assigned
and the starting value is dead. -/
def fromString_dst (s : String) : Int :=
  let d0 : Int := stCalendar_Ini.dst
  let _d1 : Int := if dstToken s = "STD" then 0 else d0
  let d2 : Int := if dstToken s = "DST" then 1 else -1
  d2

/-- The guard of the legacy `cTime::fromString` (src/src/cTimeStd.cpp lines
437-440): a string whose first character is `D` returns `stCalendar_Ini`
unchanged.  `none` stands for the non-guard path, which continues into
`sscanf` and is not part of this claim. -/
def fromString_guard (s : String) : Option stCalendar :=
  if s.data.getD 0 default = 'D' then some stCalendar_Ini else none

/-- Modelled from the spec: `LibCpp::stCalendar_Invalid`
(src/src/LibCpp/Time/cTimeStd.cpp line 217) is built from the sentinel
constants `INT32_INVALID`, `UINT8_INVALID`, ... of LibOb_strptime.h, a
header that is not under src/.  The spec describes the invalid instant as
"every field set to its type's sentinel maximum", so each field carries the
maximum of its C++ type (`int32_t year`, `uint8_t month`, `day`, `hour`,
`minute`, `second`, `int8_t dst`, `int8_t` zone hours, `uint16_t dayInYear`,
`uint8_t dayInWeek` and `calendarWeek`).  The zone minutes, picoSeconds and
the padding-like fields are 0 in the source initializer. -/
def stCalendar_Invalid : stCalendar :=
  { year := 2 ^ 31 - 1, month := 255, day := 255, hour := 255, minute := 255
    second := 255, dst := 127, timeZone := 127, leapSecond := 255
    subZone := 0, picoSeconds := 0, dayInWeek := 255, calendarWeek := 255
    dayInYear := 2 ^ 16 - 1 }

/-- The guard of the newer `cTime::fromString`
(src/src/LibCpp/Time/cTimeStd.cpp lines 499-507): a string whose first
character is `D` returns `stCalendar_Invalid`.  `none` stands for the
non-guard path, which delegates to `LibOb_strptime` (not under src/). -/
def fromStringLib_guard (s : String) : Option stCalendar :=
  if s.data.getD 0 default = 'D' then some stCalendar_Invalid else none

/-! ### The native-range converter, modelled from the spec.

`cTime::calendar` (src/src/cTimeStd.cpp lines 294-336) delegates the break
down of the epoch value to the platform's `localtime`/`mktime`; the spec
treats that oracle as an external collaborator ("breaks the epoch value down
using the platform's own calendar computation").  For a UTC zone request the
platform break-down is the proleptic-Gregorian decomposition of the epoch
seconds. -/

/-- A broken-down UTC date and time, the output of the platform calendar
break-down consumed by the native-range converter. -/
structure CivilDateTime where
  year : Int
  month : Int
  day : Int
  hour : Int
  minute : Int
  second : Int
deriving DecidableEq, Repr

/-- Modelled from the spec: the platform's proleptic-Gregorian break-down of
epoch seconds at UTC, which the native-range algorithm
(`cTime::calendar` with a UTC zone request) returns field for field.  The
date part uses the standard civil-from-days computation on the 400-year
Gregorian cycle. -/
def civilFromEpoch (e : Int) : CivilDateTime :=
  let days : Int := e.fdiv 86400
  let sod : Int := e - 86400 * days
  let z : Int := days + 719468
  let era : Int := z.fdiv 146097
  let doe : Int := z - era * 146097
  let yoe : Int := (doe - doe.fdiv 1460 + doe.fdiv 36524 - doe.fdiv 146096).fdiv 365
  let doy : Int := doe - (365 * yoe + yoe.fdiv 4 - yoe.fdiv 100)
  let mp : Int := (5 * doy + 2).fdiv 153
  let d : Int := doy - (153 * mp + 2).fdiv 5 + 1
  let m : Int := mp + (if mp < 10 then 3 else -9)
  let y : Int := yoe + era * 400 + (if m ≤ 2 then 1 else 0)
  { year := y, month := m, day := d
    hour := sod.fdiv 3600, minute := (sod.fmod 3600).fdiv 60, second := sod.fmod 60 }

/-! ### Helper lemmas -/

/-- `wrap64` is the identity on the `int64_t` range. -/
theorem wrap64_eq_self (x : Int) (h1 : -(2 ^ 63) ≤ x) (h2 : x < 2 ^ 63) :
    wrap64 x = x := by
  unfold wrap64; omega

/-- `u64ofInt` is the numeric identity on nonnegative in-range values. -/
theorem u64ofInt_eq_self (x : Int) (h1 : 0 ≤ x) (h2 : x < 2 ^ 64) :
    (u64ofInt x : Int) = x := by
  unfold u64ofInt; omega

/-! ### Claim C1 -/

/-- Claim C1 (refuted, code bug): at the exact negative multiple
`value = -5`, `modulo = 5`, `unsignedModulo` returns `divisor = -2`,
`remainder = 0`; the claimed floor quotient is `⌊-5/5⌋ = -1`, and the
returned pair violates the contract `value = divisor * modulo + remainder`
stated in the function's own doc comment (`-2 * 5 + 0 = -10 ≠ -5`). -/
theorem unsignedModulo_neg_exact_multiple_eval :
    unsignedModulo (-5) 5 = (-2, 0) ∧
    (-2) * 5 + 0 ≠ (-5 : Int) ∧
    Int.fdiv (-5) 5 = -1 := by
  refine ⟨by decide, by decide, by decide⟩

/-! ### Claim C9 -/

/-- Claim C9 (confirmed): with `modulo = 0` the guarded branch of
`unsignedModulo` is taken, returning `divisor = 1`, `remainder = 0` for
every signed value, and the function is total: every input pair yields a
result. -/
theorem unsignedModulo_zero_modulo :
    (∀ value : Int, unsignedModulo value 0 = (1, 0)) ∧
    (∀ (value : Int) (modulo : Nat), ∃ d r : Int, unsignedModulo value modulo = (d, r)) :=
  ⟨fun _ => rfl, fun v m => ⟨(unsignedModulo v m).1, (unsignedModulo v m).2, rfl⟩⟩

/-! ### Claim C2 -/

/-- Claim C2 (refuted, code bug): the epoch value `1104494400`
(2004-12-31 12:00:00 UTC, inside the overflow-safe range) is decomposed by
`y2038Calendar` under the zone request (offset 0, dst 0) into
2005-01-01 12:00:00 — one day late, because on December 31 of a leap year
the division of the 4-year remainder by a normal year's seconds yields
index 4 — and `y2038Set` maps that calendar to `1104580800 ≠ 1104494400`,
so the round trip fails.  A second failure: under the explicit zone request
(offset 1, dst 1) the round trip of `1000000000` loses two hours, because
`y2038Calendar` subtracts the dst hour from the relative zone while
`y2038Set` adds it. -/
theorem y2038_roundtrip_fails_eval :
    (y2038Calendar 1104494400 0 0).year = 2005 ∧
    (y2038Calendar 1104494400 0 0).month = 1 ∧
    (y2038Calendar 1104494400 0 0).day = 1 ∧
    (y2038Calendar 1104494400 0 0).hour = 12 ∧
    y2038Set (y2038Calendar 1104494400 0 0) = 1104580800 ∧
    y2038Set (y2038Calendar 1000000000 1 1) = 999992800 := by
  refine ⟨by decide, by decide, by decide, by decide, by decide, by decide⟩

/-! ### Claim C5 -/

/-- Claim C5 (refuted, code bug): at epoch `1104494400`, well inside the
native 32-bit range, the platform break-down (modelled from the spec as the
proleptic-Gregorian decomposition) gives 2004-12-31 12:00:00, but the
overflow-safe `y2038Calendar` gives year 2005, month 1, day 1 — the two
algorithms do not agree bit for bit. -/
theorem native_y2038_disagree_eval :
    civilFromEpoch 1104494400 =
      { year := 2004, month := 12, day := 31, hour := 12, minute := 0, second := 0 } ∧
    (y2038Calendar 1104494400 0 (-1)).year = 2005 ∧
    (y2038Calendar 1104494400 0 (-1)).month = 1 ∧
    (y2038Calendar 1104494400 0 (-1)).day = 1 := by
  refine ⟨by decide, by decide, by decide, by decide⟩

/-! ### Claim C3 -/

/-- Claim C3 (counterexample): on the well-formed GZC string
`2023-09-20#17:17:38#STD#+01:00` the extracted third-field token is `STD`,
yet `fromString` assigns `dst = -1`, not the claimed `dst = 0`: the `else`
of the source's second `if` overwrites the assignment made for `STD`. -/
theorem fromString_dst_STD_counterexample :
    dstToken "2023-09-20#17:17:38#STD#+01:00" = "STD" ∧
    fromString_dst "2023-09-20#17:17:38#STD#+01:00" = -1 ∧
    fromString_dst "2023-09-20#17:17:38#STD#+01:00" ≠ 0 := by
  refine ⟨by decide, by decide, by decide⟩

/-- Claim C3 (amended): the third-field token maps `DST` to `dst = 1` and
every other token — including `STD` and `UTC` — to `dst = -1`
(Unspecified); no token is treated as a parse error. -/
theorem fromString_dst_amended :
    ∀ s : String, fromString_dst s = if dstToken s = "DST" then 1 else -1 :=
  fun _ => rfl

/-! ### Claim C4 -/

/-- Claim C4 (counterexample): `fromDurationString` applied to a calendar
string (first character not `D`) returns `stDuration_Ini`, the
zero-magnitude positive duration — a valid-looking zero value, not a
sentinel with fields at their type maxima. -/
theorem fromDurationString_guard_counterexample :
    fromDurationString "2023-09-20#15:17:38#UTC#+00:00" = stDuration_Ini ∧
    stDuration_Ini.days = 0 ∧ stDuration_Ini.hours = 0 ∧
    stDuration_Ini.minutes = 0 ∧ stDuration_Ini.seconds = 0 ∧
    stDuration_Ini.sign = 1 := by
  refine ⟨by decide, by decide, by decide, by decide, by decide, by decide⟩

/-- Claim C4 (amended): on a grammar mismatch the parsers return
zero-initialized defaults rather than throwing — the legacy `fromString`
returns `stCalendar_Ini`, whose semantically relevant fields are all zero
(`year = 0`, `dst = 0` standard time; only the unimplemented `leapSecond`
carries the initializer's `-1`), a valid-looking zero calendar, not the
invalid sentinel; the newer `fromString` returns the sentinel
`stCalendar_Invalid`; and `fromDurationString` returns the zero duration
`stDuration_Ini`. -/
theorem parse_guards_amended (s t : String)
    (hs : s.data.getD 0 default = 'D') (ht : t.data.getD 0 default ≠ 'D') :
    fromString_guard s = some stCalendar_Ini ∧
    stCalendar_Ini.dst = 0 ∧
    stCalendar_Ini.year = 0 ∧
    stCalendar_Ini.leapSecond = -1 ∧
    fromStringLib_guard s = some stCalendar_Invalid ∧
    stCalendar_Invalid ≠ stCalendar_Ini ∧
    fromDurationString t = stDuration_Ini := by
  refine ⟨?_, by decide, by decide, by decide, ?_, by decide, ?_⟩
  · unfold fromString_guard
    rw [hs]
    decide
  · unfold fromStringLib_guard
    rw [hs]
    decide
  · unfold fromDurationString
    rw [if_pos ht]

/-- Witness for the amended C4 theorem at the concrete strings
`D95#00:42:22` and `2023-09-20#15:17:38#UTC#+00:00`. -/
theorem parse_guards_amended_witness :
    fromString_guard "D95#00:42:22" = some stCalendar_Ini ∧
    stCalendar_Ini.dst = 0 ∧
    stCalendar_Ini.year = 0 ∧
    stCalendar_Ini.leapSecond = -1 ∧
    fromStringLib_guard "D95#00:42:22" = some stCalendar_Invalid ∧
    stCalendar_Invalid ≠ stCalendar_Ini ∧
    fromDurationString "2023-09-20#15:17:38#UTC#+00:00" = stDuration_Ini :=
  parse_guards_amended "D95#00:42:22" "2023-09-20#15:17:38#UTC#+00:00"
    (by decide) (by decide)

/-! ### Claim C6 -/

/-- Claim C6 (counterexample): the calendar 2023-02-29 (2023 is not a leap
year) is not rejected: `y2038Set` converts it to epoch `1677628800`, the
epoch of 2023-03-01 00:00:00 UTC, and `y2038Calendar` decomposes that epoch
into an ordinary valid calendar (2023-03-01), not the invalid sentinel. -/
theorem feb29_nonleap_not_rejected :
    y2038Set { stCalendar_Ini with year := 2023, month := 2, day := 29, dst := 0 }
      = 1677628800 ∧
    y2038Set { stCalendar_Ini with year := 2023, month := 3, day := 1, dst := 0 }
      = 1677628800 ∧
    (y2038Calendar 1677628800 0 0).year = 2023 ∧
    (y2038Calendar 1677628800 0 0).month = 3 ∧
    (y2038Calendar 1677628800 0 0).day = 1 ∧
    y2038Calendar 1677628800 0 0 ≠ stCalendar_Invalid := by
  refine ⟨by decide, by decide, by decide, by decide, by decide, by decide⟩

/-- Claim C6 (amended): February 29 exists and round-trips exactly for
years satisfying the leap predicate — 2024-02-29 12:00:00 UTC maps to epoch
`1709208000` and back to the same fields — while for a year that fails the
predicate the date is not rejected but silently normalized: 2023-02-29 is
converted to the epoch of 2023-03-01. -/
theorem feb29_leap_roundtrip_amended :
    isLeapYear 2024 = true ∧
    isLeapYear 2023 = false ∧
    y2038Set { stCalendar_Ini with year := 2024, month := 2, day := 29, hour := 12, dst := 0 }
      = 1709208000 ∧
    (y2038Calendar 1709208000 0 0).year = 2024 ∧
    (y2038Calendar 1709208000 0 0).month = 2 ∧
    (y2038Calendar 1709208000 0 0).day = 29 ∧
    (y2038Calendar 1709208000 0 0).hour = 12 ∧
    y2038Set (y2038Calendar 1709208000 0 0) = 1709208000 ∧
    y2038Set { stCalendar_Ini with year := 2023, month := 2, day := 29, dst := 0 }
      = y2038Set { stCalendar_Ini with year := 2023, month := 3, day := 1, dst := 0 } := by
  refine ⟨by decide, by decide, by decide, by decide, by decide, by decide, by decide,
    by decide, by decide⟩

/-! ### Claim C7 -/

/-- Claim C7 (confirmed): the weekday and calendar-week derivation of the
overflow-safe converter is anchored at the 2001-01-01 pivot: epoch
`978307200` (2001-01-01 00:00:00 UTC) yields `dayInWeek = 1` (Monday) and
`calendarWeek = 1`, and epoch `1695214956` (2023-09-20 UTC) yields
`dayInWeek = 3` (Wednesday). -/
theorem weekday_anchor_eval :
    (y2038Calendar 978307200 0 (-1)).year = 2001 ∧
    (y2038Calendar 978307200 0 (-1)).month = 1 ∧
    (y2038Calendar 978307200 0 (-1)).day = 1 ∧
    (y2038Calendar 978307200 0 (-1)).dayInWeek = 1 ∧
    (y2038Calendar 978307200 0 (-1)).calendarWeek = 1 ∧
    (y2038Calendar 1695214956 0 (-1)).year = 2023 ∧
    (y2038Calendar 1695214956 0 (-1)).month = 9 ∧
    (y2038Calendar 1695214956 0 (-1)).day = 20 ∧
    (y2038Calendar 1695214956 0 (-1)).dayInWeek = 3 := by
  refine ⟨by decide, by decide, by decide, by decide, by decide, by decide, by decide,
    by decide, by decide⟩

/-! ### Claim C10 -/

/-- Claim C10 (refuted, code bug): shifting the valid instant
2023-05-01 01:00 (geographic zone +2, dst 0) to destination zone 0 crosses
midnight downward and produces `day = 0`: the borrow test in `setTimeZone`
reads `if (day < 0)` where the month borrow needs `day < 1`, so the first
day of a month decrements to the invalid day 0 instead of borrowing from
April.  The hour is shifted correctly to 23. -/
theorem setTimeZone_day_zero_eval :
    (setTimeZone { stCalendar_Ini with
        year := 2023, month := 5, day := 1, hour := 1, dst := 0, timeZone := 2 } 0).day
      = 0 ∧
    (setTimeZone { stCalendar_Ini with
        year := 2023, month := 5, day := 1, hour := 1, dst := 0, timeZone := 2 } 0).hour
      = 23 ∧
    (setTimeZone { stCalendar_Ini with
        year := 2023, month := 5, day := 1, hour := 1, dst := 0, timeZone := 2 } 0).month
      = 5 ∧
    ¬(1 ≤ (setTimeZone { stCalendar_Ini with
        year := 2023, month := 5, day := 1, hour := 1, dst := 0, timeZone := 2 } 0).day) := by
  refine ⟨by decide, by decide, by decide, by decide⟩

/-! ### Claim C8 -/

/-- Claim C8 (confirmed): for every representable epoch value `e` (the
magnitude `|e|` must itself be representable, so `e = -2^63` is excluded),
`duration` decomposes `|e|` by floor division by 86400, 3600 and 60 with
the final remainder as seconds and the sign taken from `e`, the weighted
recomposition multiplied by the sign gives back `e`, and
`cTime::set(stDuration)` applied to the result returns `e`.  The delta
`8210542` (95 days, 0 hours, 42 minutes, 22 seconds) formats as
`D95#00:42:22`, and parsing that string recomposes the delta. -/
theorem duration_decompose_roundtrip (e : Int)
    (h1 : -(2 ^ 63) < e) (h2 : e < 2 ^ 63) :
    (duration e).days = e.natAbs / 86400 ∧
    (duration e).hours = e.natAbs % 86400 / 3600 ∧
    (duration e).minutes = e.natAbs % 86400 % 3600 / 60 ∧
    (duration e).seconds = e.natAbs % 86400 % 3600 % 60 ∧
    (duration e).sign * ((duration e).days * 86400 + (duration e).hours * 3600
      + (duration e).minutes * 60 + (duration e).seconds : Nat) = e ∧
    setDuration (duration e) = e ∧
    duration 8210542 = { days := 95, hours := 0, minutes := 42, seconds := 22, sign := 1 } ∧
    toStringDuration { days := 95, hours := 0, minutes := 42, seconds := 22, sign := 1 }
      = "D95#00:42:22" ∧
    fromDurationString "D95#00:42:22"
      = { days := 95, hours := 0, minutes := 42, seconds := 22, sign := 1 } ∧
    setDuration (fromDurationString "D95#00:42:22") = 8210542 := by
  have hv : u64ofInt (wrap64 (if e < 0 then -e else e)) = e.natAbs := by
    unfold u64ofInt wrap64
    split <;> omega
  have hdur : duration e =
      { days := e.natAbs / 86400, hours := e.natAbs % 86400 / 3600
        minutes := e.natAbs % 86400 % 3600 / 60, seconds := e.natAbs % 86400 % 3600 % 60
        sign := if e < 0 then -1 else 1 } := by
    simp only [duration, hv]
  refine ⟨by rw [hdur], by rw [hdur], by rw [hdur], by rw [hdur], ?_, ?_,
    by decide, by decide, by decide, by decide⟩
  · rw [hdur]
    show (if e < 0 then (-1 : Int) else 1)
        * ((e.natAbs / 86400 * 86400 + e.natAbs % 86400 / 3600 * 3600
          + e.natAbs % 86400 % 3600 / 60 * 60 + e.natAbs % 86400 % 3600 % 60 : Nat) : Int) = e
    split <;> omega
  · rw [hdur]
    simp only [setDuration, wrap64]
    split_ifs <;> omega

/-- Witness for the C8 theorem at the concrete representable epoch value
`e = -90061` (one day, one hour, one minute and one second, negative). -/
theorem duration_decompose_roundtrip_witness :
    (duration (-90061)).days = (-90061 : Int).natAbs / 86400 ∧
    (duration (-90061)).hours = (-90061 : Int).natAbs % 86400 / 3600 ∧
    (duration (-90061)).minutes = (-90061 : Int).natAbs % 86400 % 3600 / 60 ∧
    (duration (-90061)).seconds = (-90061 : Int).natAbs % 86400 % 3600 % 60 ∧
    (duration (-90061)).sign * ((duration (-90061)).days * 86400
      + (duration (-90061)).hours * 3600
      + (duration (-90061)).minutes * 60 + (duration (-90061)).seconds : Nat) = -90061 ∧
    setDuration (duration (-90061)) = -90061 ∧
    duration 8210542 = { days := 95, hours := 0, minutes := 42, seconds := 22, sign := 1 } ∧
    toStringDuration { days := 95, hours := 0, minutes := 42, seconds := 22, sign := 1 }
      = "D95#00:42:22" ∧
    fromDurationString "D95#00:42:22"
      = { days := 95, hours := 0, minutes := 42, seconds := 22, sign := 1 } ∧
    setDuration (fromDurationString "D95#00:42:22") = 8210542 :=
  duration_decompose_roundtrip (-90061) (by decide) (by decide)

end CTime
